import Mathlib

/-!
Verification of the KTG readiness-coefficient calculator (source file
KTG.py).  The core logic is the pure function `calculate_ktg`
(lines 20-36), the sweep generator `generate_data` (lines 118-124) and
the heatmap grid construction (lines 353-362).  The real-number
arithmetic of the Python source is modelled over the rationals; Python
exceptions are modelled by an explicit error type threaded through
`Except`.
-/

/-- The kinds of exception the embedded code can raise: Python
ValueError (carrying its message) and ZeroDivisionError. -/
inductive PyError where
  | valueError (msg : String)
  | zeroDivisionError
  deriving DecidableEq, Repr

/-- Python division: raises ZeroDivisionError on a zero divisor,
otherwise exact division. -/
def pydiv (a b : ℚ) : Except PyError ℚ :=
  if b = 0 then .error .zeroDivisionError else .ok (a / b)

/-- Clamping of a value to an interval, as `max lo (min hi x)`
(KTG.py line 34 writes `max(0.01, min(1, ktg_result))`). -/
def clamp (x lo hi : ℚ) : ℚ := max lo (min hi x)

/-- KTG.py lines 20-36, `calculate_ktg`: raises ValueError when the
historical recovery time is non-positive, raises ValueError when the
baseline coefficient is outside [0.01, 1], otherwise returns
`ktg_zakl * (t_vosst_sist / t_vosst_nov_ishod)` clamped to [0.01, 1]. -/
def calculate_ktg (ktg_zakl t_vosst_sist t_vosst_nov_ishod : ℚ) : Except PyError ℚ :=
  if t_vosst_nov_ishod ≤ 0 then
    .error (.valueError "Исходное время восстановления должно быть больше 0")
  else if ¬ (1/100 ≤ ktg_zakl ∧ ktg_zakl ≤ 1) then
    .error (.valueError "КТГ закладываемый должен быть в диапазоне от 0.01 до 1")
  else
    .ok (max (1/100) (min 1 (ktg_zakl * (t_vosst_sist / t_vosst_nov_ishod))))

/-- numpy.arange with a positive step: the list
`start, start + step, ...` of length `⌈(stop - start) / step⌉`
(zero when that quantity is non-positive). -/
def arange (start stop step : ℚ) : List ℚ :=
  (List.range (Int.toNat ⌈(stop - start) / step⌉)).map (fun (k : ℕ) => start + (k : ℚ) * step)

/-- A Python list comprehension whose body may raise: evaluates left to
right and propagates the first exception. -/
def mapExcept {α β : Type} (f : α → Except PyError β) : List α → Except PyError (List β)
  | [] => .ok []
  | a :: as =>
    match f a with
    | .error e => .error e
    | .ok b =>
      match mapExcept f as with
      | .error e => .error e
      | .ok bs => .ok (b :: bs)

/-- KTG.py line 122, the body of the percent-change comprehension:
`(ktg - ktg_zakl) / ktg_zakl * 100`, with Python division semantics
(there is no guard on `ktg_zakl`). -/
def percent_change (ktg_zakl ktg : ℚ) : Except PyError ℚ :=
  match pydiv (ktg - ktg_zakl) ktg_zakl with
  | .error e => .error e
  | .ok q => .ok (q * 100)

/-- KTG.py lines 118-124, `generate_data`: sweeps
`np.arange(t_min, t_max + 0.5, 0.5)`, computes the KTG for each time in
the range, then the percent change of each KTG value, and returns the
three parallel sequences. -/
def generate_data (ktg_zakl t_vosst_sist t_min t_max : ℚ) :
    Except PyError (List ℚ × List ℚ × List ℚ) :=
  match mapExcept (fun t => calculate_ktg ktg_zakl t_vosst_sist t)
      (arange t_min (t_max + 1/2) (1/2)) with
  | .error e => .error e
  | .ok ktg_values =>
    match mapExcept (fun ktg => percent_change ktg_zakl ktg) ktg_values with
    | .error e => .error e
    | .ok ktg_change_percent =>
      .ok (arange t_min (t_max + 1/2) (1/2), ktg_values, ktg_change_percent)

/-- KTG.py lines 353-362: the heatmap grid.  The outer loop runs the
system recovery time over `np.arange(1, 6, 0.5)`, the inner loop runs
the historical recovery time over `np.arange(t_min, t_max + 1, 1)`, and
each cell is `calculate_ktg(ktg_zakl, t_sist, t_ishod)`. -/
def heatmap_data (ktg_zakl t_min t_max : ℚ) : Except PyError (List (List ℚ)) :=
  mapExcept
    (fun t_sist =>
      mapExcept (fun t_ishod => calculate_ktg ktg_zakl t_sist t_ishod)
        (arange t_min (t_max + 1) 1))
    (arange 1 6 (1/2))

/-! ### Helper lemmas -/

theorem calculate_ktg_ok (b s h : ℚ) (hb1 : 1/100 ≤ b) (hb2 : b ≤ 1) (hh : 0 < h) :
    calculate_ktg b s h = .ok (max (1/100) (min 1 (b * (s / h)))) := by
  have h1 : ¬ (h ≤ 0) := not_le.mpr hh
  have h2 : ¬ ¬ (1/100 ≤ b ∧ b ≤ 1) := not_not.mpr ⟨hb1, hb2⟩
  simp only [calculate_ktg, if_neg h1, if_neg h2]

theorem percent_change_ok (b r : ℚ) (hb : b ≠ 0) :
    percent_change b r = .ok ((r - b) / b * 100) := by
  unfold percent_change pydiv
  rw [if_neg hb]

theorem arange_eq_of_mul (start step : ℚ) (n : ℕ) (hstep : 0 < step) :
    arange start (start + n * step) step =
      (List.range n).map (fun (k : ℕ) => start + (k : ℚ) * step) := by
  unfold arange
  have h1 : (start + n * step - start) / step = (n : ℚ) := by
    rw [add_sub_cancel_left, mul_div_assoc, div_self hstep.ne', mul_one]
  rw [h1, Int.ceil_natCast, Int.toNat_natCast]

theorem arange_nil (start stop step : ℚ) (hstep : 0 < step) (h : stop ≤ start) :
    arange start stop step = [] := by
  unfold arange
  have h1 : (stop - start) / step ≤ 0 :=
    div_nonpos_iff.mpr (Or.inr ⟨sub_nonpos.mpr h, hstep.le⟩)
  have h2 : ⌈(stop - start) / step⌉ ≤ 0 := by
    rw [show (0 : ℤ) = ((0 : ℕ) : ℤ) from rfl]
    exact Int.ceil_le.mpr (by simpa using h1)
  rw [Int.toNat_of_nonpos h2]
  simp

theorem mapExcept_ok {α β : Type} (f : α → Except PyError β) (g : α → β) :
    ∀ l : List α, (∀ a ∈ l, f a = .ok (g a)) → mapExcept f l = .ok (l.map g)
  | [], _ => rfl
  | a :: as, h => by
    have ha : f a = .ok (g a) := h a (List.mem_cons_self a as)
    have hrest := mapExcept_ok f g as (fun x hx => h x (List.mem_cons_of_mem a hx))
    simp only [mapExcept, ha, hrest, List.map_cons]

theorem clamp_mono (lo hi x y : ℚ) (hxy : x ≤ y) : clamp x lo hi ≤ clamp y lo hi :=
  max_le_max le_rfl (min_le_min le_rfl hxy)

/-! ### Claim theorems -/

/-- C1: for every baseline in [0.01, 1.0], every systemTime, and every
historicalTime > 0, `calculate_ktg` returns exactly
`clamp(baseline * (systemTime / historicalTime), 0.01, 1.0)`. -/
theorem calculate_ktg_formula (b s h : ℚ) (hb1 : 1/100 ≤ b) (hb2 : b ≤ 1) (hh : 0 < h) :
    calculate_ktg b s h = .ok (clamp (b * (s / h)) (1/100) 1) := by
  rw [calculate_ktg_ok b s h hb1 hb2 hh]; rfl

/-- Witness for C1, including the spec's two concrete scenarios:
`compute(0.05, 2.0, 4.0) = 0.025` and `compute(0.05, 2.0, 0.05) = 1.0`. -/
theorem calculate_ktg_formula_witness :
    calculate_ktg (1/20) 2 4 = .ok (1/40) ∧ calculate_ktg (1/20) 2 (1/20) = .ok 1 := by
  constructor
  · rw [calculate_ktg_formula (1/20) 2 4 (by norm_num) (by norm_num) (by norm_num)]
    with_unfolding_all rfl
  · rw [calculate_ktg_formula (1/20) 2 (1/20) (by norm_num) (by norm_num) (by norm_num)]
    with_unfolding_all rfl

/-- C2: for every baseline in [0.01, 1.0] and every systemTime and
historicalTime > 0, `calculate_ktg` returns a value in [0.01, 1.0]. -/
theorem calculate_ktg_range (b s h : ℚ) (hb1 : 1/100 ≤ b) (hb2 : b ≤ 1)
    (hs : 0 < s) (hh : 0 < h) :
    ∃ r, calculate_ktg b s h = .ok r ∧ 1/100 ≤ r ∧ r ≤ 1 := by
  refine ⟨max (1/100) (min 1 (b * (s / h))), calculate_ktg_ok b s h hb1 hb2 hh, ?_, ?_⟩
  · exact le_max_left _ _
  · exact max_le (by norm_num) (min_le_left _ _)

/-- Witness for C2 at baseline 0.05, systemTime 2, historicalTime 4. -/
theorem calculate_ktg_range_witness :
    ∃ r, calculate_ktg (1/20) 2 4 = .ok r ∧ 1/100 ≤ r ∧ r ≤ 1 :=
  calculate_ktg_range (1/20) 2 4 (by norm_num) (by norm_num) (by norm_num) (by norm_num)

/-- C3: `calculate_ktg` raises an error if and only if the historical
time is non-positive or the baseline lies outside [0.01, 1.0]; every
error it raises is a ValueError (Python's InvalidArgument here), and on
every other input the call returns normally. -/
theorem calculate_ktg_error_charac (b s h : ℚ) :
    (∀ e, calculate_ktg b s h = .error e → ∃ msg, e = .valueError msg) ∧
    ((∃ e, calculate_ktg b s h = .error e) ↔ (h ≤ 0 ∨ b < 1/100 ∨ 1 < b)) ∧
    (¬ (h ≤ 0 ∨ b < 1/100 ∨ 1 < b) → ∃ r, calculate_ktg b s h = .ok r) := by
  unfold calculate_ktg
  by_cases h1 : h ≤ 0
  · rw [if_pos h1]
    refine ⟨fun e he => ⟨_, (Except.error.inj he).symm⟩, ⟨fun _ => Or.inl h1, fun _ => ⟨_, rfl⟩⟩,
      fun hcon => absurd (Or.inl h1) hcon⟩
  · rw [if_neg h1]
    by_cases h2 : 1/100 ≤ b ∧ b ≤ 1
    · rw [if_neg (not_not.mpr h2)]
      refine ⟨fun e he => absurd he (by simp), ⟨?_, ?_⟩, fun _ => ⟨_, rfl⟩⟩
      · rintro ⟨e, he⟩; exact absurd he (by simp)
      · rintro (hc | hc | hc)
        · exact absurd hc h1
        · exact absurd h2 (fun hh => absurd hh.1 (not_le.mpr hc))
        · exact absurd h2 (fun hh => absurd hh.2 (not_le.mpr hc))
    · rw [if_pos h2]
      have hcase : b < 1/100 ∨ 1 < b := by
        rcases not_and_or.mp h2 with hc | hc
        · exact Or.inl (not_le.mp hc)
        · exact Or.inr (not_le.mp hc)
      refine ⟨fun e he => ⟨_, (Except.error.inj he).symm⟩,
        ⟨fun _ => Or.inr hcase, fun _ => ⟨_, rfl⟩⟩,
        fun hcon => absurd (Or.inr hcase) hcon⟩

/-- C6: `calculate_ktg` performs no validation of the system recovery
time: for every systemTime ≤ 0 (with baseline in [0.01, 1.0] and
historicalTime > 0) it does not raise but silently computes the raw
product and clamps it to the floor value 0.01. -/
theorem calculate_ktg_no_systime_validation (b s h : ℚ) (hb1 : 1/100 ≤ b) (hb2 : b ≤ 1)
    (hs : s ≤ 0) (hh : 0 < h) :
    calculate_ktg b s h = .ok (1/100) := by
  rw [calculate_ktg_ok b s h hb1 hb2 hh]
  have hsh : s / h ≤ 0 := div_nonpos_iff.mpr (Or.inr ⟨hs, hh.le⟩)
  have hb0 : (0 : ℚ) ≤ b := le_trans (by norm_num) hb1
  have hraw : b * (s / h) ≤ 0 := mul_nonpos_iff.mpr (Or.inl ⟨hb0, hsh⟩)
  rw [min_eq_right (by linarith), max_eq_left (by linarith)]

/-- Witness for C6, the spec's concrete scenario 4:
`compute(0.5, 0, 10.0)` returns the floor value 0.01. -/
theorem calculate_ktg_no_systime_validation_witness :
    calculate_ktg (1/2) 0 10 = .ok (1/100) :=
  calculate_ktg_no_systime_validation (1/2) 0 10 (by norm_num) (by norm_num)
    (by norm_num) (by norm_num)

/-- C8: `calculate_ktg` and `generate_data` are deterministic pure
functions; any two calls with identical inputs yield identical outputs
(the embedding is a function of the arguments alone: the source reads
no ambient state inside these two functions). -/
theorem calculate_ktg_generate_data_pure (b s h tmin tmax b2 s2 h2 tmin2 tmax2 : ℚ)
    (hb : b = b2) (hs : s = s2) (hh : h = h2) (ht1 : tmin = tmin2) (ht2 : tmax = tmax2) :
    calculate_ktg b s h = calculate_ktg b2 s2 h2 ∧
    generate_data b s tmin tmax = generate_data b2 s2 tmin2 tmax2 := by
  subst hb hs hh ht1 ht2
  exact ⟨rfl, rfl⟩

/-- Witness for C8 at concrete inputs. -/
theorem calculate_ktg_generate_data_pure_witness :
    calculate_ktg (1/20) 2 4 = calculate_ktg (1/20) 2 4 ∧
    generate_data (1/20) 2 4 6 = generate_data (1/20) 2 4 6 :=
  calculate_ktg_generate_data_pure (1/20) 2 4 4 6 (1/20) 2 4 4 6 rfl rfl rfl rfl rfl

/-- C10: `generate_data` never checks `t_min ≤ t_max`: whenever
`t_min ≥ t_max + 0.5` (the numpy range is empty), it raises no error
and returns three empty sequences. -/
theorem generate_data_empty (b s tmin tmax : ℚ) (hb1 : 1/100 ≤ b) (hb2 : b ≤ 1)
    (hbound : tmax + 1/2 ≤ tmin) :
    generate_data b s tmin tmax = .ok ([], [], []) := by
  unfold generate_data
  rw [arange_nil tmin (tmax + 1/2) (1/2) (by norm_num) hbound]
  rfl

/-- Witness for C10: bounds 10 and 4 produce three empty sequences. -/
theorem generate_data_empty_witness :
    generate_data (1/20) 2 10 4 = .ok ([], [], []) :=
  generate_data_empty (1/20) 2 10 4 (by norm_num) (by norm_num) (by norm_num)

/-- Counterexample to C4 as stated: at tMin = 4, tMax = 6.25 (positive
bounds with tMin ≤ tMax), the materialized time sequence ends at 6.5,
which is strictly greater than tMax, so the sequence is not
"up to and including tMax". -/
theorem generate_data_overshoot :
    generate_data (1/20) 2 4 (25/4) =
      .ok ([4, 9/2, 5, 11/2, 6, 13/2],
           [1/40, 1/45, 1/50, 1/55, 1/60, 1/65],
           [-50, -500/9, -60, -700/11, -200/3, -900/13]) ∧
    ¬ ((13/2 : ℚ) ≤ 25/4) := by
  constructor
  · with_unfolding_all rfl
  · norm_num

/-- C4 (amended): for every baseline in [0.01, 1.0], systemTime > 0 and
positive tMin with tMax = tMin + m·0.5, `generate_data` returns the
fully materialized ordered times tMin, tMin + 0.5, ..., tMax, the
corresponding `calculate_ktg` results, and the percent changes. -/
theorem generate_data_sweep (b s tmin tmax : ℚ) (m : ℕ)
    (hb1 : 1/100 ≤ b) (hb2 : b ≤ 1) (hs : 0 < s) (hmin : 0 < tmin)
    (hspan : tmax = tmin + (m : ℚ) * (1/2)) :
    generate_data b s tmin tmax =
      .ok ((List.range (m + 1)).map (fun (k : ℕ) => tmin + (k : ℚ) * (1/2)),
           (List.range (m + 1)).map
             (fun (k : ℕ) => clamp (b * (s / (tmin + (k : ℚ) * (1/2)))) (1/100) 1),
           (List.range (m + 1)).map
             (fun (k : ℕ) =>
               (clamp (b * (s / (tmin + (k : ℚ) * (1/2)))) (1/100) 1 - b) / b * 100)) := by
  have harange : arange tmin (tmax + 1/2) (1/2) =
      (List.range (m + 1)).map (fun (k : ℕ) => tmin + (k : ℚ) * (1/2)) := by
    have hstop : tmax + 1/2 = tmin + ((m + 1 : ℕ) : ℚ) * (1/2) := by
      rw [hspan]; push_cast; ring
    rw [hstop, arange_eq_of_mul tmin (1/2) (m + 1) (by norm_num)]
  have hb0 : (0 : ℚ) < b := lt_of_lt_of_le (by norm_num) hb1
  have hpos : ∀ k : ℕ, (0 : ℚ) < tmin + (k : ℚ) * (1/2) := by
    intro k
    have hk : (0 : ℚ) ≤ (k : ℚ) * (1/2) := by positivity
    linarith
  have h1 : mapExcept (fun t => calculate_ktg b s t)
      ((List.range (m + 1)).map (fun (k : ℕ) => tmin + (k : ℚ) * (1/2))) =
      .ok (((List.range (m + 1)).map (fun (k : ℕ) => tmin + (k : ℚ) * (1/2))).map
        (fun t => clamp (b * (s / t)) (1/100) 1)) := by
    apply mapExcept_ok
    intro t ht
    rw [List.mem_map] at ht
    obtain ⟨k, -, rfl⟩ := ht
    rw [calculate_ktg_ok b s _ hb1 hb2 (hpos k)]
    rfl
  have h2 : mapExcept (fun r => percent_change b r)
      (((List.range (m + 1)).map (fun (k : ℕ) => tmin + (k : ℚ) * (1/2))).map
        (fun t => clamp (b * (s / t)) (1/100) 1)) =
      .ok ((((List.range (m + 1)).map (fun (k : ℕ) => tmin + (k : ℚ) * (1/2))).map
        (fun t => clamp (b * (s / t)) (1/100) 1)).map (fun r => (r - b) / b * 100)) := by
    apply mapExcept_ok
    intro r hr
    exact percent_change_ok b r hb0.ne'
  unfold generate_data
  rw [harange, h1]
  simp only [h2]
  simp [List.map_map, Function.comp]

/-- Witness for C4 (amended): the sweep at baseline 0.05, systemTime 2,
bounds 4 to 6, with the exact result and percent-change values. -/
theorem generate_data_sweep_witness :
    generate_data (1/20) 2 4 6 =
      .ok ([4, 9/2, 5, 11/2, 6],
           [1/40, 1/45, 1/50, 1/55, 1/60],
           [-50, -500/9, -60, -700/11, -200/3]) := by
  rw [generate_data_sweep (1/20) 2 4 6 4 (by norm_num) (by norm_num) (by norm_num)
    (by norm_num) (by norm_num)]
  with_unfolding_all rfl

/-- Counterexample to C5 as stated: the percent-change computation of
`generate_data` (KTG.py line 122) is not guarded against a zero
baseline; at baseline 0 it raises ZeroDivisionError. -/
theorem percent_change_unguarded :
    percent_change 0 1 = .error .zeroDivisionError := by
  with_unfolding_all rfl

/-- C5 (amended): for every nonzero baseline, the percent-change value
of a sweep point equals `(result - baseline) / baseline * 100`; the
division is not defensively guarded inside `generate_data`: at
baseline 0 the percent-change step raises ZeroDivisionError, and it is
only unreachable because the Calculator rejects such baselines first. -/
theorem percent_change_spec (b r : ℚ) (hb : b ≠ 0) :
    percent_change b r = .ok ((r - b) / b * 100) ∧
    percent_change 0 r = .error .zeroDivisionError := by
  refine ⟨percent_change_ok b r hb, ?_⟩
  unfold percent_change pydiv
  rw [if_pos rfl]

/-- Witness for C5 (amended) at baseline 0.05 and result 0.025. -/
theorem percent_change_spec_witness :
    percent_change (1/20) (1/40) = .ok ((1/40 - 1/20) / (1/20) * 100) ∧
    percent_change 0 (1/40) = .error .zeroDivisionError :=
  percent_change_spec (1/20) (1/40) (by norm_num)

/-- C7: with baseline in [0.01, 1.0] fixed, `calculate_ktg` is
non-increasing in the historical time (over positive historical times,
for a fixed systemTime) and non-decreasing in the systemTime (for a
fixed positive historical time). -/
theorem calculate_ktg_monotone (b s s1 s2 h h1 h2 r1 r2 q1 q2 : ℚ)
    (hb1 : 1/100 ≤ b) (hb2 : b ≤ 1)
    (hpos1 : 0 < h1) (h12 : h1 ≤ h2) (hpos : 0 < h) (hs12 : s1 ≤ s2)
    (e1 : calculate_ktg b s h1 = .ok r1) (e2 : calculate_ktg b s h2 = .ok r2)
    (e3 : calculate_ktg b s1 h = .ok q1) (e4 : calculate_ktg b s2 h = .ok q2) :
    r2 ≤ r1 ∧ q1 ≤ q2 := by
  have hpos2 : 0 < h2 := lt_of_lt_of_le hpos1 h12
  have hb0 : (0 : ℚ) ≤ b := le_trans (by norm_num) hb1
  rw [calculate_ktg_ok b s h1 hb1 hb2 hpos1] at e1
  rw [calculate_ktg_ok b s h2 hb1 hb2 hpos2] at e2
  rw [calculate_ktg_ok b s1 h hb1 hb2 hpos] at e3
  rw [calculate_ktg_ok b s2 h hb1 hb2 hpos] at e4
  have hr1 := Except.ok.inj e1
  have hr2 := Except.ok.inj e2
  have hq1 := Except.ok.inj e3
  have hq2 := Except.ok.inj e4
  subst hr1 hr2 hq1 hq2
  constructor
  · show clamp (b * (s / h2)) (1/100) 1 ≤ clamp (b * (s / h1)) (1/100) 1
    rcases le_or_lt 0 (b * s) with hbs | hbs
    · apply clamp_mono
      rw [← mul_div_assoc, ← mul_div_assoc, div_le_div_iff₀ hpos2 hpos1]
      exact mul_le_mul_of_nonneg_left h12 hbs
    · have hneg2 : b * (s / h2) < 0 := by
        rw [← mul_div_assoc]; exact div_neg_of_neg_of_pos hbs hpos2
      have hneg1 : b * (s / h1) < 0 := by
        rw [← mul_div_assoc]; exact div_neg_of_neg_of_pos hbs hpos1
      unfold clamp
      rw [min_eq_right (by linarith), min_eq_right (by linarith),
        max_eq_left (by linarith), max_eq_left (by linarith)]
  · show clamp (b * (s1 / h)) (1/100) 1 ≤ clamp (b * (s2 / h)) (1/100) 1
    apply clamp_mono
    exact mul_le_mul_of_nonneg_left ((div_le_div_iff_of_pos_right hpos).mpr hs12) hb0

/-- Witness for C7: with baseline 0.05 and systemTime 2, the result at
historical time 6 is below the result at 4; with historical time 4, the
result at systemTime 1 is below the result at systemTime 2. -/
theorem calculate_ktg_monotone_witness : (1/60 : ℚ) ≤ 1/40 ∧ (1/80 : ℚ) ≤ 1/40 :=
  calculate_ktg_monotone (1/20) 2 1 2 4 4 6 (1/40) (1/60) (1/80) (1/40)
    (by norm_num) (by norm_num) (by norm_num) (by norm_num) (by norm_num) (by norm_num)
    (by with_unfolding_all rfl) (by with_unfolding_all rfl)
    (by with_unfolding_all rfl) (by with_unfolding_all rfl)

/-- C9: the heatmap grid sweeps the system recovery time over the small
range 1, 1.5, ..., 5.5 (step 0.5) and the historical recovery time over
the primary range tMin, tMin + 1, ..., tMax (step 1.0), and every cell
is exactly the Calculator's clamped value at the row's system time and
the column's historical time, with no additional logic. -/
theorem heatmap_data_grid (b tmin tmax : ℚ) (m : ℕ)
    (hb1 : 1/100 ≤ b) (hb2 : b ≤ 1) (hmin : 0 < tmin) (hspan : tmax = tmin + (m : ℚ)) :
    heatmap_data b tmin tmax =
      .ok ((List.range 10).map (fun (i : ℕ) =>
        (List.range (m + 1)).map (fun (j : ℕ) =>
          clamp (b * ((1 + (i : ℚ) * (1/2)) / (tmin + (j : ℚ)))) (1/100) 1))) := by
  have hsist : arange 1 6 (1/2) = (List.range 10).map (fun (i : ℕ) => 1 + (i : ℚ) * (1/2)) := by
    have h6 : (6 : ℚ) = 1 + ((10 : ℕ) : ℚ) * (1/2) := by norm_num
    rw [h6, arange_eq_of_mul 1 (1/2) 10 (by norm_num)]
  have hishod : arange tmin (tmax + 1) 1 =
      (List.range (m + 1)).map (fun (j : ℕ) => tmin + (j : ℚ) * 1) := by
    have hstop : tmax + 1 = tmin + ((m + 1 : ℕ) : ℚ) * 1 := by rw [hspan]; push_cast; ring
    rw [hstop, arange_eq_of_mul tmin 1 (m + 1) (by norm_num)]
  have hcol : ∀ j : ℕ, (0 : ℚ) < tmin + (j : ℚ) * 1 := by
    intro j
    have hj : (0 : ℚ) ≤ (j : ℚ) := Nat.cast_nonneg j
    linarith
  have hrow : ∀ ts ∈ (List.range 10).map (fun (i : ℕ) => (1 : ℚ) + (i : ℚ) * (1/2)),
      mapExcept (fun th => calculate_ktg b ts th)
        ((List.range (m + 1)).map (fun (j : ℕ) => tmin + (j : ℚ) * 1)) =
      .ok (((List.range (m + 1)).map (fun (j : ℕ) => tmin + (j : ℚ) * 1)).map
        (fun th => clamp (b * (ts / th)) (1/100) 1)) := by
    intro ts _
    apply mapExcept_ok
    intro th hth
    rw [List.mem_map] at hth
    obtain ⟨j, -, rfl⟩ := hth
    rw [calculate_ktg_ok b ts _ hb1 hb2 (hcol j)]
    rfl
  unfold heatmap_data
  rw [hsist, hishod]
  rw [mapExcept_ok _
    (fun ts => ((List.range (m + 1)).map (fun (j : ℕ) => tmin + (j : ℚ) * 1)).map
      (fun th => clamp (b * (ts / th)) (1/100) 1)) _ hrow]
  simp [List.map_map, Function.comp, mul_one]

/-- Witness for C9 at baseline 0.05 and bounds 4 to 6. -/
theorem heatmap_data_grid_witness :
    heatmap_data (1/20) 4 6 =
      .ok ((List.range 10).map (fun (i : ℕ) =>
        (List.range 3).map (fun (j : ℕ) =>
          clamp ((1/20) * ((1 + (i : ℚ) * (1/2)) / (4 + (j : ℚ)))) (1/100) 1))) :=
  heatmap_data_grid (1/20) 4 6 2 (by norm_num) (by norm_num) (by norm_num) (by norm_num)
